import Mathlib

/-!
Verification of the data validation and profiling engine of the Aiupload
repository (src/utils/validators.py).  Tabular datasets are embedded as lists
of rows of optional string cells; rational numbers stand in for the floating
point arithmetic of the source (all quantities involved are exact ratios).
Each Python function of the engine is translated into an executable Lean
definition of the same name, including the behaviour of the swallow-all
exception handlers where they are reachable.
-/

namespace Validators

/-- A cell of a tabular dataset: `none` is a missing (null/NaN) value,
`some s` is the string value `s`. -/
abbrev Cell := Option String

/-- Shallow embedding of a pandas DataFrame: parallel lists of column names
and column dtypes, and a row-major list of rows. -/
structure DF where
  colNames : List String
  colDtypes : List String
  rows : List (List Cell)
deriving DecidableEq, Repr

/-- Number of rows (`len(df)`). -/
def DF.nRows (df : DF) : Nat := df.rows.length

/-- Number of columns (`len(df.columns)`). -/
def DF.nCols (df : DF) : Nat := df.colNames.length

/-- `df.empty` in pandas: true when either axis has length zero. -/
def DF.isEmpty (df : DF) : Bool := df.nRows == 0 || df.nCols == 0

/-- Well-formedness: the dtype list is parallel to the name list and every
row has exactly one cell per column. -/
def DF.wf (df : DF) : Prop :=
  df.colDtypes.length = df.nCols ∧ ∀ r ∈ df.rows, r.length = df.nCols

instance (df : DF) : Decidable df.wf := by
  unfold DF.wf; infer_instance

/-- The values of column `j`, in row order (`df[col]` for the `j`-th column). -/
def DF.colVals (df : DF) (j : Nat) : List Cell :=
  df.rows.map (fun r => r.getD j none)

/-- Total number of missing cells (`df.isnull().sum().sum()`). -/
def DF.missingCells (df : DF) : Nat :=
  (df.rows.map (fun r => r.countP (fun c => c == none))).sum

/-- Number of duplicate rows (`df.duplicated().sum()`): rows whose full value
tuple equals an earlier row's.  Pandas treats NaN as equal to NaN here, which
matches equality of `Option` cells. -/
def DF.dupRowCount (df : DF) : Nat :=
  df.rows.enum.countP (fun p => decide (p.2 ∈ df.rows.take p.1))

/-- Number of distinct non-missing values of column `j`
(`df[col].nunique()`, which drops NaN by default). -/
def DF.nuniqueCol (df : DF) (j : Nat) : Nat :=
  ((df.colVals j).filterMap id).dedup.length

/-- True when some column name occurs more than once
(`len(df.columns) != len(set(df.columns))`). -/
def DF.hasDupCols (df : DF) : Bool :=
  df.colNames.dedup.length != df.colNames.length

/-- Embedding of `calculate_data_quality_score`.  The source wraps the whole
computation in `try/except ...: return 50.0`; with duplicated column labels
the per-column `df[col].nunique()` probe returns a Series and the comparison
`df[col].nunique() <= 1` raises, so the swallowed failure yields the default
score 50.  On unique column labels the computation cannot fail. -/
def calculate_data_quality_score (df : DF) : ℚ :=
  if df.isEmpty then 0
  else if df.hasDupCols then 50
  else
    let totalCells : ℚ := (df.nRows : ℚ) * (df.nCols : ℚ)
    let missing_ratio : ℚ := (df.missingCells : ℚ) / totalCells
    let duplicate_ratio : ℚ := (df.dupRowCount : ℚ) / (df.nRows : ℚ)
    let single_value_cols : Nat :=
      (List.range df.nCols).countP (fun j => decide (df.nuniqueCol j ≤ 1))
    let single_value_ratio : ℚ := (single_value_cols : ℚ) / (df.nCols : ℚ)
    let score : ℚ :=
      100 - missing_ratio * 30 - duplicate_ratio * 20 - single_value_ratio * 15
    max 0 (min 100 score)

/-- The whitespace characters stripped by Python's `str.strip()` and matched
by the regex class `\s` (ASCII range). -/
def isPyWhitespace (c : Char) : Bool :=
  c == ' ' || c == '\t' || c == '\n' || c == '\r' || c == '\x0b' || c == '\x0c'

/-- Python `str.strip()`: remove leading and trailing whitespace. -/
def pyStrip (s : String) : String :=
  ⟨((s.toList.dropWhile isPyWhitespace).reverse.dropWhile isPyWhitespace).reverse⟩

/-- Split a character list on a separator character (semantics of Python's
`str.split(sep)` for a single-character separator). -/
def splitOnChar (sep : Char) : List Char → List (List Char)
  | [] => [[]]
  | c :: rest =>
    let r := splitOnChar sep rest
    if c = sep then [] :: r
    else
      match r with
      | h :: t => (c :: h) :: t
      | [] => [[c]]

/-- Drop one leading `+` or `-` sign. -/
def stripSignChars : List Char → List Char
  | c :: rest => if c = '+' || c = '-' then rest else c :: rest
  | [] => []

/-- Nonempty run of decimal digits. -/
def digitsNonempty (cs : List Char) : Bool :=
  decide (cs ≠ []) && cs.all Char.isDigit

/-- Mantissa of a numeric literal: digits with at most one decimal point and
at least one digit overall. -/
def mantissaOK (cs : List Char) : Bool :=
  match splitOnChar '.' cs with
  | [a] => digitsNonempty a
  | [a, b] => decide (a ++ b ≠ []) && (a ++ b).all Char.isDigit
  | _ => false

/-- Model of `pd.to_numeric(value, errors='raise')` succeeding on a string:
an optional sign, a decimal mantissa, and an optional exponent part. -/
def parsesNumeric (s : String) : Bool :=
  let cs := stripSignChars (s.toList.map Char.toLower)
  match splitOnChar 'e' cs with
  | [m] => mantissaOK m
  | [m, ex] => mantissaOK m && digitsNonempty (stripSignChars ex)
  | _ => false

/-- The regex `^-?\d+$` used for the integer-shape test. -/
def intShapeMatch (s : String) : Bool :=
  digitsNonempty (match s.toList with
    | '-' :: rest => rest
    | cs => cs)

/-- The regex `\d{4}-\d{2}-\d{2}` used via `str.match`, i.e. matched as a
prefix of the value. -/
def dateShapeMatch (s : String) : Bool :=
  match s.toList with
  | a :: b :: c :: d :: '-' :: e :: f :: '-' :: g :: h :: _ =>
    a.isDigit && b.isDigit && c.isDigit && d.isDigit &&
      e.isDigit && f.isDigit && g.isDigit && h.isDigit
  | _ => false

/-- Lower-case a string character by character (Python `str.lower()` on the
ASCII values relevant here). -/
def lowerStr (s : String) : String := ⟨s.toList.map Char.toLower⟩

/-- The candidate boolean literals of the type advisor. -/
def boolLiterals : List String := ["true", "false", "1", "0", "yes", "no"]

/-- The per-column logic of `suggest_data_types`: given the current storage
dtype and the non-missing values, return the suggested dtype.  The checks run
in the source's order: numeric (integer shape refining to `int64`), then
date shape, then boolean literals, else the current dtype; non-`object`
columns and columns with no non-missing values pass through unchanged. -/
def suggestColType (current : String) (sample : List String) : String :=
  if sample.length = 0 then current
  else if current = "object" then
    if sample.all parsesNumeric then
      if sample.all intShapeMatch then "int64" else "float64"
    else if sample.any dateShapeMatch then "datetime64[ns]"
    else if sample.all (fun v => decide (lowerStr v ∈ boolLiterals)) then "bool"
    else current
  else current

/-- Position of the first column whose name is duplicated in the frame, if
any.  At that column `df[col]` yields a DataFrame and `df[col].dtype` raises
`AttributeError`; the function's swallow-all handler then returns the
suggestions accumulated so far. -/
def DF.firstDupCol (df : DF) : Option Nat :=
  (List.range df.nCols).find?
    (fun j => decide (1 < df.colNames.count (df.colNames.getD j "")))

/-- Embedding of `suggest_data_types`: one suggestion per column, in column
order, truncated at the first duplicated column name (where the source's
internal `AttributeError` is caught and the partial dict returned). -/
def suggest_data_types (df : DF) : List (String × String) :=
  let upTo : Nat :=
    match df.firstDupCol with
    | some j => j
    | none => df.nCols
  (List.range upTo).map (fun j =>
    (df.colNames.getD j "",
      suggestColType (df.colDtypes.getD j "") ((df.colVals j).filterMap id)))

/-- Dtype of the column named `c` (`str(df[col].dtype)` for a unique label). -/
def DF.dtypeOf (df : DF) (c : String) : String :=
  match (df.colNames.zip df.colDtypes).find? (fun p => p.1 == c) with
  | some p => p.2
  | none => ""

/-- The validation report returned by `validate_dataframe`.  The `info` dict
of the source is modelled by its two claim-relevant entries, present only on
the successful path. -/
structure Report where
  is_valid : Bool
  errors : List String
  warnings : List String
  suggestions : List String
  info_shape : Option (Nat × Nat)
  info_quality_score : Option ℚ
deriving DecidableEq, Repr

/-- Names of the columns whose values are all missing
(`df.columns[df.isnull().all()]`). -/
def DF.emptyColNames (df : DF) : List String :=
  (List.range df.nCols).filterMap (fun j =>
    if (df.colVals j).all (fun c => c == none) then some (df.colNames.getD j "")
    else none)

/-- Number of missing cells in column `j`. -/
def DF.missingInCol (df : DF) (j : Nat) : Nat :=
  (df.colVals j).countP (fun c => c == none)

/-- Names of the columns with strictly more than 50% missing values
(`missing_data[missing_data > len(df) * 0.5]`). -/
def DF.highMissingColNames (df : DF) : List String :=
  (List.range df.nCols).filterMap (fun j =>
    if df.nRows < 2 * df.missingInCol j then some (df.colNames.getD j "")
    else none)

/-- Render a list of names the way the claim-relevant parts of the report
need: comma separated. -/
def joinNames (l : List String) : String := String.intercalate ", " l

/-- Per-column dtype-mismatch suggestions of `validate_dataframe`: for each
`object` column, a numeric-data suggestion when every non-missing value
parses numerically (vacuously true for an all-missing column, exactly as
`pd.to_numeric` succeeds on an empty series), and a date suggestion when some
non-missing value has a `YYYY-MM-DD`-shaped prefix. -/
def DF.dtypeSuggestions (df : DF) : List String :=
  (List.range df.nCols).flatMap (fun j =>
    if df.colDtypes.getD j "" = "object" then
      let name := df.colNames.getD j ""
      let vals := (df.colVals j).filterMap id
      (if vals.all parsesNumeric then
        ["Column '" ++ name ++ "' appears to contain numeric data but is stored as text"]
      else []) ++
      (if vals.any dateShapeMatch then
        ["Column '" ++ name ++ "' appears to contain dates"]
      else [])
    else [])

/-- The report returned for a `None` or empty DataFrame. -/
def emptyInputReport : Report :=
  ⟨false, ["DataFrame is empty or None"], [], ["Please upload a valid data file"],
    none, none⟩

/-- Embedding of `validate_dataframe`.  A duplicated column name makes the
dtype probe loop evaluate `df[col].dtype` on a DataFrame slice, raising
`AttributeError`; the outer handler converts this into the generic
validation-error report, discarding the duplicate-name error built earlier.
On unique column names no check can raise, the error list stays empty and the
report is assembled from the warning and suggestion checks in source order. -/
def validate_dataframe (odf : Option DF) : Report :=
  match odf with
  | none => emptyInputReport
  | some df =>
    if df.isEmpty then emptyInputReport
    else if df.hasDupCols then
      ⟨false, ["Validation error: 'DataFrame' object has no attribute 'dtype'"],
        [], ["Please check your data format"], none, none⟩
    else
      let errors : List String := []
      let warnings : List String :=
        (if df.emptyColNames.isEmpty then []
         else ["Completely empty columns: " ++ joinNames df.emptyColNames]) ++
        (if df.highMissingColNames.isEmpty then []
         else ["Columns with >50% missing data: " ++ joinNames df.highMissingColNames])
      let suggestions : List String :=
        (if df.emptyColNames.isEmpty then [] else ["Consider removing empty columns"]) ++
        (if df.highMissingColNames.isEmpty then []
         else ["Review columns with high missing data rates"]) ++
        df.dtypeSuggestions
      ⟨errors.isEmpty, errors, warnings, suggestions,
        some (df.nRows, df.nCols), some (calculate_data_quality_score df)⟩

/-- A Python value as passed to the field validators: `None`, a string, or a
non-string value of some other type. -/
inductive Value where
  | vNone
  | vStr (s : String)
  | vInt (n : Int)
  | vFloat (q : ℚ)
  | vBool (b : Bool)
deriving DecidableEq, Repr

/-- The common guard `if not x or not isinstance(x, str): return False` of the
four field validators: the body runs only for a nonempty string, whose
content this returns. -/
def Value.truthyStr : Value → Option String
  | .vStr s => if s = "" then none else some s
  | _ => none

/-- Character class `[a-zA-Z0-9._%+-]` (local part of the email regex). -/
def emailLocalChar (c : Char) : Bool :=
  c.isAlpha || c.isDigit || c == '.' || c == '_' || c == '%' || c == '+' || c == '-'

/-- Character class `[a-zA-Z0-9.-]` (domain part of the email regex). -/
def emailDomainChar (c : Char) : Bool :=
  c.isAlpha || c.isDigit || c == '.' || c == '-'

/-- Match of `[a-zA-Z0-9.-]+\.[a-zA-Z]{2,}` against the whole domain: the
only viable split point is the last dot (letters after an earlier dot would
have to include a dot).  Requires a nonempty run of domain characters, a dot,
and a final run of at least two letters. -/
def emailDomainOK (cs : List Char) : Bool :=
  let rev := cs.reverse
  let tldR := rev.takeWhile (fun c => !(c == '.'))
  if rev.length ≤ tldR.length then false
  else
    let before := cs.take (cs.length - tldR.length - 1)
    decide (2 ≤ tldR.length) && tldR.all Char.isAlpha &&
      decide (before ≠ []) && before.all emailDomainChar

/-- Body of `validate_email`: full match of
`^[a-zA-Z0-9._%+-]+@[a-zA-Z0-9.-]+\.[a-zA-Z]{2,}$` against the stripped
string.  Since neither class contains `@`, the string must contain exactly
one `@`. -/
def emailCore (s : String) : Bool :=
  match splitOnChar '@' (pyStrip s).toList with
  | [loc, domain] =>
    decide (loc ≠ []) && loc.all emailLocalChar && emailDomainOK domain
  | _ => false

/-- Embedding of `validate_email`. -/
def validate_email (v : Value) : Bool :=
  match v.truthyStr with
  | none => false
  | some s => emailCore s

/-- The separator class actually stripped by `validate_phone`:
`re.sub(r'[\s\-$$$$\.]', '', ...)` removes whitespace, dashes, literal dollar
signs and dots — note that it does NOT remove parentheses (the source's
character class contains `$$$$` where escaped parentheses were evidently
intended). -/
def phoneSeparator (c : Char) : Bool :=
  isPyWhitespace c || c == '-' || c == '$' || c == '.'

/-- One character in the inclusive range `lo`–`hi`. -/
def charBetween (lo hi c : Char) : Bool := decide (lo ≤ c) && decide (c ≤ hi)

/-- The ten-digit core of the US pattern `[2-9]\d{2}[2-9]\d{2}\d{4}`. -/
def usCore10 : List Char → Bool
  | [a, b, c, d, e, f, g, h, i, j] =>
    charBetween '2' '9' a && b.isDigit && c.isDigit &&
      charBetween '2' '9' d && e.isDigit && f.isDigit &&
      g.isDigit && h.isDigit && i.isDigit && j.isDigit
  | _ => false

/-- Drop one optional leading `+` (the `\+?` of both phone patterns). -/
def dropPlus : List Char → List Char
  | '+' :: rest => rest
  | cs => cs

/-- The US pattern `^\+?1?[2-9]\d{2}[2-9]\d{2}\d{4}$`. -/
def matchUSPhone (cs : List Char) : Bool :=
  let cs1 := dropPlus cs
  usCore10 cs1 ||
    (match cs1 with
     | '1' :: rest => usCore10 rest
     | _ => false)

/-- The international pattern `^\+?[1-9]\d{1,14}$`. -/
def matchIntlPhone (cs : List Char) : Bool :=
  match dropPlus cs with
  | c :: rest =>
    charBetween '1' '9' c && rest.all Char.isDigit &&
      decide (1 ≤ rest.length) && decide (rest.length ≤ 14)
  | [] => false

/-- Embedding of `validate_phone`: strip the separator class, then try the US
pattern and the international pattern. -/
def validate_phone (v : Value) : Bool :=
  match v.truthyStr with
  | none => false
  | some s =>
    let cp := (pyStrip s).toList.filter (fun c => !phoneSeparator c)
    matchUSPhone cp || matchIntlPhone cp

/-- Character class `[-\w.]` (URL host). -/
def urlHostChar (c : Char) : Bool :=
  c == '-' || c.isAlphanum || c == '_' || c == '.'

/-- Character class `[:\d]` (URL port group). -/
def urlPortChar (c : Char) : Bool := c == ':' || c.isDigit

/-- Character class `[\w/_.]` (URL path). -/
def urlPathChar (c : Char) : Bool :=
  c.isAlphanum || c == '_' || c == '/' || c == '.'

/-- Character class `[\w&=%.]` (URL query). -/
def urlQueryChar (c : Char) : Bool :=
  c.isAlphanum || c == '_' || c == '&' || c == '=' || c == '%' || c == '.'

/-- Character class `\w` (URL fragment). -/
def urlWordChar (c : Char) : Bool := c.isAlphanum || c == '_'

/-- Match of the optional URL tail
`(?:/(?:[\w/_.])*(?:\?(?:[\w&=%.])*)?(?:#(?:\w*))?)?$`: the class boundaries
(`?` and `#` belong to no class) make maximal munch exact here. -/
def urlTail (cs : List Char) : Bool :=
  match cs with
  | [] => true
  | '/' :: rest =>
    (match rest.dropWhile urlPathChar with
     | [] => true
     | '?' :: r2 =>
       (match r2.dropWhile urlQueryChar with
        | [] => true
        | '#' :: r4 => r4.all urlWordChar
        | _ => false)
     | '#' :: r4 => r4.all urlWordChar
     | _ => false)
  | _ => false

/-- Match of `(?:[-\w.])+(?:[:\d]+)?` followed by the URL tail, with the
regex's backtracking expressed as a search over split points. -/
def urlHostPort (cs : List Char) : Bool :=
  (List.range (cs.length + 1)).any (fun i =>
    decide (1 ≤ i) && (cs.take i).all urlHostChar &&
      ((List.range (cs.length - i + 1)).any (fun p =>
        (decide (p = 0) ||
          (decide (1 ≤ p) && ((cs.drop i).take p).all urlPortChar)) &&
          urlTail ((cs.drop i).drop p))))

/-- Body of `validate_url`: the scheme `http` or `https`, `://`, then host,
optional port and optional path of the source regex. -/
def urlCore (s : String) : Bool :=
  match (pyStrip s).toList with
  | 'h' :: 't' :: 't' :: 'p' :: rest =>
    (match rest with
     | 's' :: ':' :: '/' :: '/' :: r2 => urlHostPort r2
     | ':' :: '/' :: '/' :: r2 => urlHostPort r2
     | _ => false)
  | _ => false

/-- Embedding of `validate_url`. -/
def validate_url (v : Value) : Bool :=
  match v.truthyStr with
  | none => false
  | some s => urlCore s

/-- A token of a `strptime` format string: the directives used by the default
formats of `validate_date`, a literal character, or a whitespace run (CPython
compiles whitespace in the format to `\s+`). -/
inductive FmtTok where
  | Y
  | m
  | d
  | H
  | M
  | S
  | lit (c : Char)
  | ws
deriving DecidableEq, Repr

/-- Numeric value of a digit character. -/
def digitVal (c : Char) : Nat := c.toNat - '0'.toNat

/-- Two-digit candidate with the value constrained to `lo`–`hi` (and `00`
excluded when `lo ≥ 1`), as in CPython's `_strptime` regexes. -/
def candTwo (lo hi : Nat) : List Char → List (Nat × List Char)
  | a :: b :: rest =>
    if a.isDigit && b.isDigit then
      let v := digitVal a * 10 + digitVal b
      if lo ≤ v ∧ v ≤ hi then [(v, rest)] else []
    else []
  | _ => []

/-- One-digit candidate with the value constrained to `lo`–`hi`. -/
def candOne (lo hi : Nat) : List Char → List (Nat × List Char)
  | a :: rest =>
    if a.isDigit ∧ lo ≤ digitVal a ∧ digitVal a ≤ hi then
      [(digitVal a, rest)]
    else []
  | [] => []

/-- Exactly four digits (`%Y` is `\d\d\d\d` in CPython). -/
def candYear : List Char → List (Nat × List Char)
  | a :: b :: c :: d :: rest =>
    if a.isDigit && b.isDigit && c.isDigit && d.isDigit then
      [(digitVal a * 1000 + digitVal b * 100 + digitVal c * 10 + digitVal d, rest)]
    else []
  | _ => []

/-- `%d` additionally accepts a space-padded single digit (` [1-9]`). -/
def candDay (cs : List Char) : List (Nat × List Char) :=
  candTwo 1 31 cs ++ candOne 1 9 cs ++
    (match cs with
     | ' ' :: a :: rest =>
       if a.isDigit ∧ 1 ≤ digitVal a ∧ digitVal a ≤ 9 then
         [(digitVal a, rest)]
       else []
     | _ => [])

/-- Parsed time fields, defaulted as `strptime` does. -/
structure TM where
  y : Nat
  mo : Nat
  dy : Nat
  hh : Nat
  mi : Nat
  ss : Nat
deriving DecidableEq, Repr

/-- One parsing step for a format token, with the regex alternations kept as
candidate lists. -/
def stepTok (t : FmtTok) (p : TM × List Char) : List (TM × List Char) :=
  match t with
  | .Y => (candYear p.2).map (fun q => ({ p.1 with y := q.1 }, q.2))
  | .m => ((candTwo 1 12 p.2 ++ candOne 1 9 p.2).map
      (fun q => ({ p.1 with mo := q.1 }, q.2)))
  | .d => (candDay p.2).map (fun q => ({ p.1 with dy := q.1 }, q.2))
  | .H => ((candTwo 0 23 p.2 ++ candOne 0 9 p.2).map
      (fun q => ({ p.1 with hh := q.1 }, q.2)))
  | .M => ((candTwo 0 59 p.2 ++ candOne 0 9 p.2).map
      (fun q => ({ p.1 with mi := q.1 }, q.2)))
  | .S => ((candTwo 0 61 p.2 ++ candOne 0 9 p.2).map
      (fun q => ({ p.1 with ss := q.1 }, q.2)))
  | .lit c =>
    (match p.2 with
     | x :: rest => if x = c then [(p.1, rest)] else []
     | [] => [])
  | .ws =>
    (match p.2 with
     | x :: _ =>
       if isPyWhitespace x then [(p.1, p.2.dropWhile isPyWhitespace)] else []
     | [] => [])

/-- Run a format over a character list; a successful parse must consume the
whole input (`strptime` rejects unconverted trailing data). -/
def runFmt (toks : List FmtTok) (cs : List Char) : List TM :=
  (toks.foldl (fun acc t => acc.flatMap (stepTok t))
      [(⟨1900, 1, 1, 0, 0, 0⟩, cs)]).filterMap
    (fun p => if p.2 = [] then some p.1 else none)

/-- Days in a month of the proleptic Gregorian calendar used by `datetime`. -/
def daysInMonth (y mo : Nat) : Nat :=
  if mo = 2 then
    if y % 4 = 0 ∧ (y % 100 ≠ 0 ∨ y % 400 = 0) then 29 else 28
  else if mo = 4 ∨ mo = 6 ∨ mo = 9 ∨ mo = 11 then 30
  else 31

/-- Constructibility of `datetime(y, mo, dy, hh, mi, ss)`: the regexes already
bound month, hour and minute, but year 0, day overflow for the month, and the
leap-second values 60/61 still raise `ValueError`. -/
def validTM (t : TM) : Bool :=
  decide (1 ≤ t.y) && decide (1 ≤ t.dy) && decide (t.dy ≤ daysInMonth t.y t.mo) &&
    decide (t.ss ≤ 59)

/-- The default format list of `validate_date`:
`%Y-%m-%d`, `%m/%d/%Y`, `%d/%m/%Y`, `%Y-%m-%d %H:%M:%S`,
`%m/%d/%Y %H:%M:%S`, `%d-%m-%Y`, `%Y/%m/%d`. -/
def defaultDateFormats : List (List FmtTok) :=
  [[.Y, .lit '-', .m, .lit '-', .d],
   [.m, .lit '/', .d, .lit '/', .Y],
   [.d, .lit '/', .m, .lit '/', .Y],
   [.Y, .lit '-', .m, .lit '-', .d, .ws, .H, .lit ':', .M, .lit ':', .S],
   [.m, .lit '/', .d, .lit '/', .Y, .ws, .H, .lit ':', .M, .lit ':', .S],
   [.d, .lit '-', .m, .lit '-', .Y],
   [.Y, .lit '/', .m, .lit '/', .d]]

/-- Embedding of `validate_date`: try each format (the default list when
`formats` is `None`) on the stripped string; success on the first format
whose parse consumes the input and builds a constructible `datetime`. -/
def validate_date (v : Value) (formats : Option (List (List FmtTok))) : Bool :=
  match v.truthyStr with
  | none => false
  | some s =>
    let fmts :=
      match formats with
      | none => defaultDateFormats
      | some f => f
    fmts.any (fun f => (runFmt f (pyStrip s).toList).any validTM)

/-- Kernel-computable exact rationals: a numerator and a (kept positive)
denominator, without gcd normalization, so that every arithmetic step of the
outlier computations reduces inside the kernel.  The `toRat` lemmas below
prove the operations agree with ℚ. -/
structure Q where
  num : Int
  den : Int
deriving DecidableEq, Repr

/-- Embed an integer. -/
def Q.ofInt (n : Int) : Q := ⟨n, 1⟩

/-- Exact addition. -/
def Q.add (a b : Q) : Q := ⟨a.num * b.den + b.num * a.den, a.den * b.den⟩

/-- Exact subtraction. -/
def Q.sub (a b : Q) : Q := ⟨a.num * b.den - b.num * a.den, a.den * b.den⟩

/-- Exact multiplication. -/
def Q.mul (a b : Q) : Q := ⟨a.num * b.num, a.den * b.den⟩

/-- Division by a (positive) integer. -/
def Q.divInt (a : Q) (n : Int) : Q := ⟨a.num, a.den * n⟩

/-- Strict order by cross multiplication (valid for positive denominators). -/
def Q.blt (a b : Q) : Bool := decide (a.num * b.den < b.num * a.den)

/-- Non-strict order by cross multiplication. -/
def Q.ble (a b : Q) : Bool := decide (a.num * b.den ≤ b.num * a.den)

/-- Semantic equality by cross multiplication. -/
def Q.beq (a b : Q) : Bool := decide (a.num * b.den = b.num * a.den)

/-- Floor (for a positive denominator, `Int.fdiv` floors the quotient). -/
def Q.floor (a : Q) : Int := a.num.fdiv a.den

/-- The rational value represented. -/
def Q.toRat (a : Q) : ℚ := (a.num : ℚ) / (a.den : ℚ)

/-- `Q.add` computes rational addition. -/
lemma Q.toRat_add (a b : Q) (ha : a.den ≠ 0) (hb : b.den ≠ 0) :
    (Q.add a b).toRat = a.toRat + b.toRat := by
  unfold Q.add Q.toRat
  have ha' : (a.den : ℚ) ≠ 0 := Int.cast_ne_zero.2 ha
  have hb' : (b.den : ℚ) ≠ 0 := Int.cast_ne_zero.2 hb
  push_cast
  field_simp

/-- `Q.sub` computes rational subtraction. -/
lemma Q.toRat_sub (a b : Q) (ha : a.den ≠ 0) (hb : b.den ≠ 0) :
    (Q.sub a b).toRat = a.toRat - b.toRat := by
  unfold Q.sub Q.toRat
  have ha' : (a.den : ℚ) ≠ 0 := Int.cast_ne_zero.2 ha
  have hb' : (b.den : ℚ) ≠ 0 := Int.cast_ne_zero.2 hb
  push_cast
  field_simp
  ring

/-- `Q.mul` computes rational multiplication. -/
lemma Q.toRat_mul (a b : Q) (ha : a.den ≠ 0) (hb : b.den ≠ 0) :
    (Q.mul a b).toRat = a.toRat * b.toRat := by
  unfold Q.mul Q.toRat
  have ha' : (a.den : ℚ) ≠ 0 := Int.cast_ne_zero.2 ha
  have hb' : (b.den : ℚ) ≠ 0 := Int.cast_ne_zero.2 hb
  push_cast
  field_simp

/-- `Q.divInt` computes rational division by a nonzero integer. -/
lemma Q.toRat_divInt (a : Q) (n : Int) (ha : a.den ≠ 0) (hn : n ≠ 0) :
    (Q.divInt a n).toRat = a.toRat / (n : ℚ) := by
  unfold Q.divInt Q.toRat
  have ha' : (a.den : ℚ) ≠ 0 := Int.cast_ne_zero.2 ha
  have hn' : (n : ℚ) ≠ 0 := Int.cast_ne_zero.2 hn
  push_cast
  field_simp

/-- `Q.blt` decides the rational strict order. -/
lemma Q.blt_iff (a b : Q) (ha : 0 < a.den) (hb : 0 < b.den) :
    Q.blt a b = true ↔ a.toRat < b.toRat := by
  unfold Q.blt Q.toRat
  have ha' : (0 : ℚ) < (a.den : ℚ) := by exact_mod_cast ha
  have hb' : (0 : ℚ) < (b.den : ℚ) := by exact_mod_cast hb
  rw [decide_eq_true_eq, div_lt_div_iff₀ ha' hb']
  constructor
  · intro h
    exact_mod_cast h
  · intro h
    exact_mod_cast h

/-- `Q.beq` decides rational equality. -/
lemma Q.beq_iff (a b : Q) (ha : a.den ≠ 0) (hb : b.den ≠ 0) :
    Q.beq a b = true ↔ a.toRat = b.toRat := by
  unfold Q.beq Q.toRat
  have ha' : (a.den : ℚ) ≠ 0 := Int.cast_ne_zero.2 ha
  have hb' : (b.den : ℚ) ≠ 0 := Int.cast_ne_zero.2 hb
  rw [decide_eq_true_eq, div_eq_div_iff ha' hb']
  constructor
  · intro h
    exact_mod_cast h
  · intro h
    exact_mod_cast h

/-- A pandas Series as passed to `detect_outliers`: a numeric-dtype flag and
the entries as (row index, optional value) pairs, values as exact rationals. -/
structure Series where
  isNumeric : Bool
  entries : List (Nat × Option Q)
deriving DecidableEq, Repr

/-- The non-missing values in row order (`series.dropna()`). -/
def Series.clean (s : Series) : List Q :=
  s.entries.filterMap (fun p => p.2)

/-- Insert into a sorted list of rationals. -/
def insertQ (x : Q) : List Q → List Q
  | [] => [x]
  | y :: ys => if x.ble y then x :: y :: ys else y :: insertQ x ys

/-- Sort a list of rationals ascending (insertion sort). -/
def sortQ : List Q → List Q
  | [] => []
  | x :: xs => insertQ x (sortQ xs)

/-- Sum of a list of rationals. -/
def qsum : List Q → Q
  | [] => ⟨0, 1⟩
  | x :: xs => x.add (qsum xs)

/-- Pandas `Series.quantile(q)` with the default linear interpolation: on the
sorted values, position `h = q * (n - 1)` is split into integer part `i` and
fraction `g`, giving `v[i] + g * (v[i+1] - v[i])`. -/
def quantile (l : List Q) (q : Q) : Q :=
  let s := sortQ l
  let n := s.length
  if n = 0 then ⟨0, 1⟩
  else
    let h : Q := q.mul (Q.ofInt ((n : Int) - 1))
    let i : Nat := h.floor.toNat
    let g : Q := h.sub (Q.ofInt (i : Int))
    match s.get? i, s.get? (i + 1) with
    | some a, some b => a.add (g.mul (b.sub a))
    | some a, none => a
    | _, _ => ⟨0, 1⟩

/-- Mean of a list of rationals (`series.mean()`). -/
def seriesMean (l : List Q) : Q := (qsum l).divInt (l.length : Int)

/-- Sample variance with `ddof = 1`, the square of pandas `series.std()`. -/
def sampleVar (l : List Q) : Q :=
  (qsum (l.map (fun v =>
    (v.sub (seriesMean l)).mul (v.sub (seriesMean l))))).divInt
    ((l.length : Int) - 1)

/-- Embedding of `detect_outliers`.  Non-numeric series and series with fewer
than 4 non-missing values give `[]`.  For `iqr`, every row whose value lies
strictly outside `[Q1 - 1.5*IQR, Q3 + 1.5*IQR]` is flagged (missing values
compare false).  For `zscore`, the z-scores are computed over the non-missing
values only; when the series also has missing rows the boolean mask
`z_scores > 3` cannot be aligned with the series index, pandas raises
`IndexingError`, and the swallow-all handler returns `[]`.  When the standard
deviation is zero the z-scores are NaN and no row is flagged.  Otherwise
`|v - mean| / std > 3` is expressed exactly as `(v - mean)^2 > 9 * var`. -/
def detect_outliers (s : Series) (method : String) : List Nat :=
  if !s.isNumeric then []
  else
    let clean := s.clean
    if clean.length < 4 then []
    else if method = "iqr" then
      let q1 := quantile clean ⟨1, 4⟩
      let q3 := quantile clean ⟨3, 4⟩
      let iqr := q3.sub q1
      let lb := q1.sub ((⟨3, 2⟩ : Q).mul iqr)
      let ub := q3.add ((⟨3, 2⟩ : Q).mul iqr)
      (s.entries.filter (fun p =>
        match p.2 with
        | some v => v.blt lb || ub.blt v
        | none => false)).map (fun p => p.1)
    else if method = "zscore" then
      if clean.length ≠ s.entries.length then []
      else if (sampleVar clean).beq ⟨0, 1⟩ then []
      else
        let mean := seriesMean clean
        (s.entries.filter (fun p =>
          match p.2 with
          | some v =>
            ((Q.ofInt 9).mul (sampleVar clean)).blt
              ((v.sub mean).mul (v.sub mean))
          | none => false)).map (fun p => p.1)
    else []

/-- The IQR outlier set as the spec words it: flag every row (missing-value
rows naturally never match) whose value lies strictly outside
`[Q1 - 1.5*IQR, Q3 + 1.5*IQR]`, preserving original row index identity. -/
def iqrOutliersSpec (s : Series) : List Nat :=
  let clean := s.clean
  let q1 := quantile clean ⟨1, 4⟩
  let q3 := quantile clean ⟨3, 4⟩
  let lb := q1.sub ((⟨3, 2⟩ : Q).mul (q3.sub q1))
  let ub := q3.add ((⟨3, 2⟩ : Q).mul (q3.sub q1))
  (s.entries.filter (fun p =>
    match p.2 with
    | some v => v.blt lb || ub.blt v
    | none => false)).map (fun p => p.1)

/-- The z-score outlier set as the claim words it: exactly the rows whose
value `v` satisfies `|v - mean| / std > 3` with mean and (sample) standard
deviation computed over the non-missing values; stated squared to stay in
exact arithmetic. -/
def zscoreOutliersSpec (s : Series) : List Nat :=
  let clean := s.clean
  let mean := seriesMean clean
  (s.entries.filter (fun p =>
    match p.2 with
    | some v =>
      ((Q.ofInt 9).mul (sampleVar clean)).blt ((v.sub mean).mul (v.sub mean))
    | none => false)).map (fun p => p.1)

/-- The slice of a profiled column used by `generate_recommendations`. -/
structure ColProfile where
  missing_percentage : ℚ
  unique_percentage : ℚ
deriving DecidableEq, Repr

/-- The slice of a data profile used by `generate_recommendations`. -/
structure Profile where
  columns : List (String × ColProfile)
  duplicate_rows : Nat
  memory_usage_mb : ℚ
deriving DecidableEq, Repr

/-- One-decimal rendering of a percentage, standing in for Python's `:.1f`
format in the recommendation strings (the rounding detail is immaterial to
the verified properties). -/
def fmt1 (q : ℚ) : String :=
  let t : Int := Int.floor (q * 10)
  toString (t / 10) ++ "." ++ toString (t % 10)

/-- High-missing-data loop of `generate_recommendations` (remove above 50%,
review above 20%, the thresholds mutually exclusive per column). -/
def recsMissing (profile : Profile) : List String :=
  profile.columns.flatMap (fun p =>
    if decide (50 < p.2.missing_percentage) then
      ["Consider removing column '" ++ p.1 ++ "' - " ++
        fmt1 p.2.missing_percentage ++ "% missing data"]
    else if decide (20 < p.2.missing_percentage) then
      ["Review column '" ++ p.1 ++ "' - " ++
        fmt1 p.2.missing_percentage ++ "% missing data"]
    else [])

/-- Low-variance loop of `generate_recommendations`. -/
def recsVariance (profile : Profile) : List String :=
  profile.columns.flatMap (fun p =>
    if decide (p.2.unique_percentage < 1) then
      ["Column '" ++ p.1 ++ "' has very low variance - consider removing"]
    else [])

/-- Duplicate-row entry of `generate_recommendations`. -/
def recsDuplicates (profile : Profile) : List String :=
  if decide (0 < profile.duplicate_rows) then
    ["Remove " ++ toString profile.duplicate_rows ++ " duplicate rows"]
  else []

/-- Type-conversion loop of `generate_recommendations`: one entry per column
whose suggestion from `suggest_data_types` differs from the current dtype and
lies in the closed conversion set. -/
def recsTypeConversions (df : DF) : List String :=
  (suggest_data_types df).flatMap (fun p =>
    if decide (p.2 ≠ df.dtypeOf p.1) &&
        decide (p.2 ∈ ["int64", "float64", "datetime64[ns]", "bool"]) then
      ["Consider converting column '" ++ p.1 ++ "' to " ++ p.2]
    else [])

/-- Memory-optimization entry of `generate_recommendations`. -/
def recsMemory (profile : Profile) : List String :=
  if decide (100 < profile.memory_usage_mb) then
    ["Consider optimizing data types to reduce memory usage"]
  else []

/-- Embedding of `generate_recommendations`: the high-missing loop, the
low-variance loop, the duplicate-row entry, the type-conversion loop from
`suggest_data_types`, and the memory entry, appended in source order. -/
def generate_recommendations (df : DF) (profile : Profile) : List String :=
  recsMissing profile ++ recsVariance profile ++ recsDuplicates profile ++
    recsTypeConversions df ++ recsMemory profile

/-- A row all of whose cells are missing (dropped by `dropna(how='all')`). -/
def rowAllMissing (r : List Cell) : Bool := r.all (fun c => c == none)

/-- `df.dropna(how='all')` on the rows. -/
def dropEmptyRows (rows : List (List Cell)) : List (List Cell) :=
  rows.filter (fun r => !rowAllMissing r)

/-- Column `j` holds only missing values over the given rows. -/
def colAllMissing (rows : List (List Cell)) (j : Nat) : Bool :=
  rows.all (fun r => r.getD j none == none)

/-- Indices of the columns kept by `dropna(axis=1, how='all')`. -/
def keepColIdx (rows : List (List Cell)) (n : Nat) : List Nat :=
  (List.range n).filter (fun j => !colAllMissing rows j)

/-- Project a row onto a list of column indices. -/
def selectCells (ks : List Nat) (r : List Cell) : List Cell :=
  ks.map (fun j => r.getD j none)

/-- Project a list of strings (names or dtypes) onto column indices. -/
def selectStr (ks : List Nat) (l : List String) : List String :=
  ks.map (fun j => l.getD j "")

/-- Strategy `basic` of `clean_data`: drop all-missing rows, then (on the
remaining rows) drop all-missing columns. -/
def basicClean (df : DF) : DF :=
  let rows1 := dropEmptyRows df.rows
  let ks := keepColIdx rows1 df.nCols
  ⟨selectStr ks df.colNames, selectStr ks df.colDtypes, rows1.map (selectCells ks)⟩

/-- Strategy `aggressive` of `clean_data`: drop every row containing at least
one missing value (`dropna()`). -/
def aggressiveClean (df : DF) : DF :=
  ⟨df.colNames, df.colDtypes,
    df.rows.filter (fun r => !r.any (fun c => c == none))⟩

/-- Strategy `smart` of `clean_data`: drop columns whose missing ratio
exceeds 0.8, then drop rows whose missing ratio across the remaining columns
exceeds 0.5.  With zero rows (resp. zero remaining columns) the pandas ratio
is NaN, every `≤` comparison is false, and everything is dropped. -/
def smartClean (df : DF) : DF :=
  if df.nRows = 0 then ⟨[], [], []⟩
  else
    let ks := (List.range df.nCols).filter (fun j =>
      decide (((df.missingInCol j : ℚ) / (df.nRows : ℚ)) ≤ 8 / 10))
    let names := selectStr ks df.colNames
    let dts := selectStr ks df.colDtypes
    let rows1 := df.rows.map (selectCells ks)
    if ks.length = 0 then ⟨names, dts, []⟩
    else
      ⟨names, dts,
        rows1.filter (fun r =>
          decide (((r.countP (fun c => c == none) : ℚ) / (ks.length : ℚ)) ≤ 1 / 2))⟩

/-- Embedding of `clean_data`: dispatch on the strategy name; any unknown
strategy falls through every branch and the copy of the input is returned
unchanged. -/
def clean_data (df : DF) (strategy : String) : DF :=
  if strategy = "basic" then basicClean df
  else if strategy = "aggressive" then aggressiveClean df
  else if strategy = "smart" then smartClean df
  else df

/-! ## Concrete datasets and series used by the theorems -/

/-- Dataset with no missing values, no duplicate rows, no constant columns. -/
def dfPerfect : DF :=
  ⟨["a", "b"], ["object", "object"],
    [[some "1", some "x"], [some "2", some "y"]]⟩

/-- Dataset with the duplicated column names of the spec's example. -/
def dfABA : DF :=
  ⟨["A", "B", "A"], ["object", "object", "object"],
    [[some "x", some "y", some "z"]]⟩

/-- Dataset exercising all five type suggestions of the spec. -/
def dfTypes : DF :=
  ⟨["c1", "c2", "c3", "c4", "c5"],
    ["object", "object", "object", "object", "object"],
    [[some "1", some "1.5", some "2024-01-01", some "yes", some "apple"],
     [some "2", some "2.5", some "2024-02-02", some "no", some "banana"],
     [some "3", none, none, some "yes", none]]⟩

/-- Dataset with a textual integer column, for the recommendation witness. -/
def dfConv : DF := ⟨["n"], ["object"], [[some "1"], [some "2"]]⟩

/-- Dataset with an all-missing row and an all-missing column, for the
cleaner theorems. -/
def dfMessy : DF :=
  ⟨["a", "b", "c"], ["object", "object", "object"],
    [[some "1", none, none], [none, none, none], [some "2", some "u", none]]⟩

/-- The series 1..9,100 of the spec's IQR example (row indices 0..9). -/
def sIqr10 : Series :=
  ⟨true, [(0, some (Q.ofInt 1)), (1, some (Q.ofInt 2)), (2, some (Q.ofInt 3)),
    (3, some (Q.ofInt 4)), (4, some (Q.ofInt 5)), (5, some (Q.ofInt 6)),
    (6, some (Q.ofInt 7)), (7, some (Q.ofInt 8)), (8, some (Q.ofInt 9)),
    (9, some (Q.ofInt 100))]⟩

/-- The three-value series of the spec's small-sample IQR example. -/
def sIqr3 : Series :=
  ⟨true, [(0, some (Q.ofInt 1)), (1, some (Q.ofInt 2)), (2, some (Q.ofInt 3))]⟩

/-- Numeric series with ten zeros, one extreme value and one missing value:
the extreme value has z-score above 3 over the non-missing sample, but the
presence of the missing row makes the source return `[]`. -/
def sZmiss : Series :=
  ⟨true, [(0, some (Q.ofInt 0)), (1, some (Q.ofInt 0)), (2, some (Q.ofInt 0)),
    (3, some (Q.ofInt 0)), (4, some (Q.ofInt 0)), (5, some (Q.ofInt 0)),
    (6, some (Q.ofInt 0)), (7, some (Q.ofInt 0)), (8, some (Q.ofInt 0)),
    (9, some (Q.ofInt 0)), (10, some (Q.ofInt 1000)), (11, none)]⟩

/-- The same values without the missing row: here the source does flag the
extreme value. -/
def sZfull : Series :=
  ⟨true, [(0, some (Q.ofInt 0)), (1, some (Q.ofInt 0)), (2, some (Q.ofInt 0)),
    (3, some (Q.ofInt 0)), (4, some (Q.ofInt 0)), (5, some (Q.ofInt 0)),
    (6, some (Q.ofInt 0)), (7, some (Q.ofInt 0)), (8, some (Q.ofInt 0)),
    (9, some (Q.ofInt 0)), (10, some (Q.ofInt 1000))]⟩

/-! ## C1: quality score -/

/-- C1: the quality score is 100 minus 30 times the missing-cell ratio,
minus 20 times the duplicate-row ratio, minus 15 times the constant-column
ratio, clamped to [0, 100]; the empty dataset scores 0; every score lies in
[0, 100]; a dataset with no missing values, no duplicate rows and no
constant (at most one distinct non-missing value) columns scores exactly
100; and the only reachable internal computation failure (duplicated column
labels) yields the default score 50. -/
theorem C1_quality_score (df : DF) :
    (0 ≤ calculate_data_quality_score df ∧
      calculate_data_quality_score df ≤ 100) ∧
    (df.isEmpty = true → calculate_data_quality_score df = 0) ∧
    (df.isEmpty = false → df.hasDupCols = true →
      calculate_data_quality_score df = 50) ∧
    (df.isEmpty = false → df.hasDupCols = false →
      calculate_data_quality_score df =
        max 0 (min 100
          (100 - (df.missingCells : ℚ) / ((df.nRows : ℚ) * (df.nCols : ℚ)) * 30
            - (df.dupRowCount : ℚ) / (df.nRows : ℚ) * 20
            - (((List.range df.nCols).countP
                  (fun j => decide (df.nuniqueCol j ≤ 1)) : ℚ)) /
                (df.nCols : ℚ) * 15))) ∧
    (df.isEmpty = false → df.hasDupCols = false → df.missingCells = 0 →
      df.dupRowCount = 0 → (∀ j < df.nCols, 2 ≤ df.nuniqueCol j) →
      calculate_data_quality_score df = 100) := by
  refine ⟨?_, ?_, ?_, ?_, ?_⟩
  · unfold calculate_data_quality_score
    split
    · norm_num
    · split
      · norm_num
      · exact ⟨le_max_left 0 _, max_le (by norm_num) (min_le_left _ _)⟩
  · intro h
    simp [calculate_data_quality_score, h]
  · intro h1 h2
    simp [calculate_data_quality_score, h1, h2]
  · intro h1 h2
    simp [calculate_data_quality_score, h1, h2]
  · intro h1 h2 hm hd hu
    have hcount : (List.range df.nCols).countP
        (fun j => decide (df.nuniqueCol j ≤ 1)) = 0 := by
      rw [List.countP_eq_zero]
      intro j hj
      have hlt := List.mem_range.1 hj
      have h2le := hu j hlt
      simp only [decide_eq_true_eq]
      omega
    simp [calculate_data_quality_score, h1, h2, hm, hd, hcount]

/-- Witness for C1 at a concrete perfect dataset. -/
theorem C1_quality_score_witness :
    dfPerfect.isEmpty = false ∧ dfPerfect.hasDupCols = false ∧
    dfPerfect.missingCells = 0 ∧ dfPerfect.dupRowCount = 0 ∧
    calculate_data_quality_score dfPerfect = 100 :=
  ⟨rfl, rfl, by decide, by decide,
    (C1_quality_score dfPerfect).2.2.2.2 rfl rfl (by decide) (by decide)
      (by decide)⟩

/-! ## C2: structural validator -/

/-- C2 fails on the code: for the dataset with columns ["A", "B", "A"] the
duplicate-name error built by the validator is discarded, because the later
dtype probe `df[col].dtype` evaluates on a DataFrame slice (duplicated
label) and raises `AttributeError`; the swallow-all handler returns the
generic validation-error report, whose single error does not mention "A".
The empty-input behaviour and the `is_valid` iff empty-errors relation do
hold. -/
theorem C2_duplicate_columns_generic_error :
    (validate_dataframe (some dfABA)).is_valid = false ∧
    (validate_dataframe (some dfABA)).errors =
      ["Validation error: 'DataFrame' object has no attribute 'dtype'"] ∧
    (∀ odf : Option DF,
      (validate_dataframe odf).is_valid = (validate_dataframe odf).errors.isEmpty) ∧
    (validate_dataframe none).errors.length = 1 := by
  refine ⟨by decide, by decide, ?_, by decide⟩
  intro odf
  cases odf with
  | none => rfl
  | some df =>
    by_cases he : df.isEmpty
    · simp [validate_dataframe, he, emptyInputReport]
    · by_cases hd : df.hasDupCols
      · simp [validate_dataframe, he, hd]
      · simp [validate_dataframe, he, hd]

/-! ## C3: phone validator -/

/-- C3 fails on the code: the separator class `[\s\-$$$$\.]` of
`validate_phone` strips whitespace, dashes, literal dollar signs and dots
but NOT parentheses (the `$$$$` sits where escaped parentheses were clearly
intended, and the docstring announces removal of common separators), so the
valid US number "(555) 123-4567" is rejected while its dash-separated form
is accepted. -/
theorem C3_phone_parentheses :
    validate_phone (Value.vStr "(555) 123-4567") = false ∧
    validate_phone (Value.vStr "555-123-4567") = true := by decide

/-! ## C8: unknown cleaning strategy -/

/-- C8: the cleaner is a pure function from dataset and strategy to a new
dataset (the source copies the frame before transforming), and any strategy
name outside basic/aggressive/smart returns the input dataset unchanged
without raising. -/
theorem C8_unknown_strategy (df : DF) (strategy : String)
    (h1 : strategy ≠ "basic") (h2 : strategy ≠ "aggressive")
    (h3 : strategy ≠ "smart") :
    clean_data df strategy = df := by
  simp [clean_data, h1, h2, h3]

/-- Witness for C8 at a concrete dataset and strategy name. -/
theorem C8_unknown_strategy_witness :
    clean_data dfMessy "median" = dfMessy :=
  C8_unknown_strategy dfMessy "median" (by decide) (by decide) (by decide)

/-! ## C10: field validator guards -/

/-- C10: each of the four field validators returns false, rather than
raising, on None, on the empty string, and on every non-string value (the
shared guard `not x or not isinstance(x, str)`). -/
theorem C10_validator_guards (v : Value)
    (h : match v with | Value.vStr s => s = "" | _ => True) :
    validate_email v = false ∧ validate_phone v = false ∧
    validate_url v = false ∧ ∀ fmts, validate_date v fmts = false := by
  cases v with
  | vNone => exact ⟨rfl, rfl, rfl, fun _ => rfl⟩
  | vStr s =>
    have hs : s = "" := h
    subst hs
    exact ⟨rfl, rfl, rfl, fun _ => rfl⟩
  | vInt n => exact ⟨rfl, rfl, rfl, fun _ => rfl⟩
  | vFloat q => exact ⟨rfl, rfl, rfl, fun _ => rfl⟩
  | vBool b => exact ⟨rfl, rfl, rfl, fun _ => rfl⟩

/-- Witness for C10 at the None value. -/
theorem C10_validator_guards_witness :
    validate_email Value.vNone = false ∧ validate_phone Value.vNone = false ∧
    validate_url Value.vNone = false ∧
    validate_date Value.vNone none = false := by
  have h := C10_validator_guards Value.vNone trivial
  exact ⟨h.1, h.2.1, h.2.2.1, h.2.2.2 none⟩

/-! ## C6: type advisor -/

/-- Under unique column names no `AttributeError` is reachable and
`suggest_data_types` covers every column. -/
lemma firstDupCol_eq_none_of_nodup (df : DF) (h : df.colNames.Nodup) :
    df.firstDupCol = none := by
  unfold DF.firstDupCol
  rw [List.find?_eq_none]
  intro j hj
  have hcount := List.nodup_iff_count_le_one.1 h (df.colNames.getD j "")
  simp only [decide_eq_true_eq]
  omega

/-- C6: with unique column names, the advisor maps column `j` to exactly the
source's per-column suggestion (current dtype for empty samples or
non-`object` dtypes; otherwise int64 / float64 / datetime64[ns] / bool by
the ordered tests); the five example columns of the spec evaluate to
int64, float64, datetime64[ns], bool and the unchanged dtype. -/
theorem C6_type_advisor :
    (∀ (df : DF), df.colNames.Nodup → ∀ j, j < df.nCols →
      (suggest_data_types df)[j]? =
        some (df.colNames.getD j "",
          suggestColType (df.colDtypes.getD j "")
            ((df.colVals j).filterMap id))) ∧
    suggest_data_types dfTypes =
      [("c1", "int64"), ("c2", "float64"), ("c3", "datetime64[ns]"),
       ("c4", "bool"), ("c5", "object")] := by
  constructor
  · intro df hnd j hj
    unfold suggest_data_types
    rw [firstDupCol_eq_none_of_nodup df hnd]
    rw [List.getElem?_map, List.getElem?_range hj]
    rfl
  · decide

/-- Witness for C6 at the example dataset and its first column. -/
theorem C6_type_advisor_witness :
    dfTypes.colNames.Nodup ∧ 0 < dfTypes.nCols ∧
    (suggest_data_types dfTypes)[0]? = some ("c1", "int64") :=
  ⟨by decide, by decide,
    (C6_type_advisor.1 dfTypes (by decide) 0 (by decide)).trans (by decide)⟩

/-! ## C7: recommendation consistency -/

/-- C7: every column whose advisor suggestion differs from its current
storage dtype and lies in {int64, float64, datetime64[ns], bool} produces
the corresponding conversion recommendation in the engine's output, for any
profile. -/
theorem C7_recommendation_consistency (df : DF) (profile : Profile)
    (c t : String) (hmem : (c, t) ∈ suggest_data_types df)
    (hne : t ≠ df.dtypeOf c)
    (ht : t ∈ ["int64", "float64", "datetime64[ns]", "bool"]) :
    ("Consider converting column '" ++ c ++ "' to " ++ t) ∈
      generate_recommendations df profile := by
  have hmsg : ("Consider converting column '" ++ c ++ "' to " ++ t) ∈
      recsTypeConversions df := by
    unfold recsTypeConversions
    refine List.mem_flatMap.2 ⟨(c, t), hmem, ?_⟩
    simp [hne, ht]
  unfold generate_recommendations
  exact List.mem_append.2 (Or.inl (List.mem_append.2 (Or.inr hmsg)))

/-- Witness for C7 at a one-column textual integer dataset. -/
theorem C7_recommendation_consistency_witness :
    ("Consider converting column '" ++ "n" ++ "' to " ++ "int64") ∈
      generate_recommendations dfConv ⟨[], 0, 0⟩ :=
  C7_recommendation_consistency dfConv ⟨[], 0, 0⟩ "n" "int64"
    (by decide) (by decide) (by decide)

/-! ## C4: z-score outlier detection -/

/-- C4 fails on the code: for a numeric column with at least 4 non-missing
values but also a missing value, the boolean mask `z_scores > 3` is indexed
by the non-missing rows only, `series[mask]` raises pandas'
`IndexingError` (unalignable boolean indexer), and the swallow-all handler
returns `[]` — even though a row with `|v - mean| / std > 3` exists, which
the claim requires to be flagged. -/
theorem C4_zscore_counterexample :
    detect_outliers sZmiss "zscore" = [] ∧
    zscoreOutliersSpec sZmiss = [10] := by decide

/-- C4 (amended): for a numeric column with at least 4 non-missing values,
z-score detection returns exactly the rows with `|v - mean| / std > 3`
(sample standard deviation) when the column has no missing values and the
standard deviation is nonzero; a zero standard deviation yields the empty
sequence; and the presence of any missing value yields the empty sequence
(the swallowed alignment error). -/
theorem C4_zscore_amended (s : Series) (hnum : s.isNumeric = true)
    (hlen : 4 ≤ s.clean.length) :
    (s.clean.length ≠ s.entries.length → detect_outliers s "zscore" = []) ∧
    (s.clean.length = s.entries.length → (sampleVar s.clean).beq ⟨0, 1⟩ = true →
      detect_outliers s "zscore" = []) ∧
    (s.clean.length = s.entries.length → (sampleVar s.clean).beq ⟨0, 1⟩ = false →
      detect_outliers s "zscore" = zscoreOutliersSpec s) := by
  have hnlt : ¬ s.clean.length < 4 := by omega
  refine ⟨?_, ?_, ?_⟩
  · intro hne
    simp [detect_outliers, hnum, hnlt, hne]
  · intro heq hv
    simp [detect_outliers, hnum, hnlt, heq, hv]
  · intro heq hv
    have hnlt2 : ¬ s.entries.length < 4 := by omega
    simp [detect_outliers, zscoreOutliersSpec, hnum, hnlt, hnlt2, heq, hv]

/-- Witness for the amended C4 at the full (no-missing) extreme series, where
the flagged set is nonempty. -/
theorem C4_zscore_amended_witness :
    sZfull.isNumeric = true ∧ 4 ≤ sZfull.clean.length ∧
    sZfull.clean.length = sZfull.entries.length ∧
    (sampleVar sZfull.clean).beq ⟨0, 1⟩ = false ∧
    detect_outliers sZfull "zscore" = zscoreOutliersSpec sZfull ∧
    detect_outliers sZfull "zscore" = [10] :=
  ⟨rfl, by decide, by decide, by decide,
    (C4_zscore_amended sZfull rfl (by decide)).2.2 (by decide) (by decide),
    by decide⟩

/-! ## C5: IQR outlier detection -/

/-- C5: IQR detection returns the empty sequence for non-numeric columns and
for columns with fewer than 4 non-missing values; otherwise it returns
exactly the rows (by original row index, in row order) whose value lies
strictly outside `[Q1 - 1.5*IQR, Q3 + 1.5*IQR]` over the non-missing values
(missing rows never match); on [1..9, 100] exactly the row holding 100 is
flagged, and on [1, 2, 3] the result is empty. -/
theorem C5_iqr_outliers :
    (∀ s : Series, s.isNumeric = false → detect_outliers s "iqr" = []) ∧
    (∀ s : Series, s.clean.length < 4 → detect_outliers s "iqr" = []) ∧
    (∀ s : Series, s.isNumeric = true → 4 ≤ s.clean.length →
      detect_outliers s "iqr" = iqrOutliersSpec s) ∧
    detect_outliers sIqr10 "iqr" = [9] ∧
    detect_outliers sIqr3 "iqr" = [] := by
  refine ⟨?_, ?_, ?_, by decide, by decide⟩
  · intro s h
    simp [detect_outliers, h]
  · intro s h
    cases hn : s.isNumeric with
    | false => simp [detect_outliers, hn]
    | true => simp [detect_outliers, hn, h]
  · intro s hnum hlen
    have hnlt : ¬ s.clean.length < 4 := by omega
    simp [detect_outliers, iqrOutliersSpec, hnum, hnlt]

/-- Witness for C5 at the ten-value example series. -/
theorem C5_iqr_outliers_witness :
    sIqr10.isNumeric = true ∧ 4 ≤ sIqr10.clean.length ∧
    detect_outliers sIqr10 "iqr" = iqrOutliersSpec sIqr10 :=
  ⟨rfl, by decide, C5_iqr_outliers.2.2.1 sIqr10 rfl (by decide)⟩

/-! ## C9: idempotence of the basic cleaner -/

/-- Indexing a mapped list below its length applies the function to the
indexed element, for any defaults. -/
lemma getD_map_of_lt {α β : Type} (f : α → β) (l : List α) (i : Nat)
    (d : α) (e : β) (h : i < l.length) :
    (l.map f).getD i e = f (l.getD i d) := by
  induction l generalizing i with
  | nil => simp at h
  | cons a t ih =>
    cases i with
    | zero => simp
    | succ n =>
      simp only [List.map_cons, List.getD_cons_succ]
      exact ih n (Nat.lt_of_succ_lt_succ h)

/-- An index below the length selects a member. -/
lemma getD_mem_of_lt {α : Type} (l : List α) (i : Nat) (d : α)
    (h : i < l.length) : l.getD i d ∈ l := by
  induction l generalizing i with
  | nil => simp at h
  | cons a t ih =>
    cases i with
    | zero => simp
    | succ n =>
      simp only [List.getD_cons_succ]
      exact List.mem_cons_of_mem _ (ih n (Nat.lt_of_succ_lt_succ h))

/-- Reading every position of a list back in order reproduces the list. -/
lemma map_getD_range {α : Type} (l : List α) (d : α) :
    (List.range l.length).map (fun j => l.getD j d) = l := by
  induction l with
  | nil => simp
  | cons a t ih =>
    rw [List.length_cons, List.range_succ_eq_map, List.map_cons,
      List.map_map]
    have h2 : (List.range t.length).map
        ((fun j => (a :: t).getD j d) ∘ Nat.succ) =
        (List.range t.length).map (fun j => t.getD j d) :=
      List.map_congr_left (fun j _ => by simp [List.getD_cons_succ])
    rw [h2, ih]
    rfl

/-- A row that is not entirely missing has a non-missing cell at some
position. -/
lemma not_allMissing_exists {r : List Cell} (h : rowAllMissing r = false) :
    ∃ j, j < r.length ∧ r.getD j none ≠ none := by
  induction r with
  | nil => simp [rowAllMissing] at h
  | cons c t ih =>
    by_cases hc : c = none
    · subst hc
      have ht : rowAllMissing t = false := by
        simpa [rowAllMissing] using h
      obtain ⟨j, hj, hne⟩ := ih ht
      exact ⟨j + 1, by simpa using Nat.succ_lt_succ hj,
        by simpa [List.getD_cons_succ] using hne⟩
    · exact ⟨0, Nat.succ_pos _, by simpa [List.getD_cons_zero] using hc⟩

/-- C9 core: `basicClean` is idempotent on well-formed frames.  After the
first pass every remaining row keeps a non-missing cell (its witness column
cannot be all-missing) and every remaining column keeps a non-missing
witness row, so the second pass drops nothing. -/
lemma basicClean_idem (df : DF) (hwf : df.wf) :
    basicClean (basicClean df) = basicClean df := by
  obtain ⟨hdt, hrows⟩ := hwf
  set rows1 := dropEmptyRows df.rows with hrows1def
  set ks := keepColIdx rows1 df.nCols with hksdef
  have hrow1mem : ∀ r ∈ rows1, r ∈ df.rows := by
    intro r hr
    exact (List.mem_filter.1 hr).1
  have hrow1len : ∀ r ∈ rows1, r.length = df.nCols := fun r hr =>
    hrows r (hrow1mem r hr)
  have hnotall : ∀ r ∈ rows1, rowAllMissing r = false := by
    intro r hr
    have := (List.mem_filter.1 hr).2
    simpa using this
  have hksbound : ∀ j ∈ ks, j < df.nCols := by
    intro j hj
    exact List.mem_range.1 (List.mem_filter.1 hj).1
  -- every row surviving pass 1 keeps a non-missing cell after projection
  have hkeep : ∀ r ∈ rows1, rowAllMissing (selectCells ks r) = false := by
    intro r hr
    obtain ⟨j, hj, hne⟩ := not_allMissing_exists (hnotall r hr)
    have hjn : j < df.nCols := by
      rw [hrow1len r hr] at hj
      exact hj
    have hjks : j ∈ ks := by
      rw [hksdef]
      unfold keepColIdx
      refine List.mem_filter.2 ⟨List.mem_range.2 hjn, ?_⟩
      have hfalse : colAllMissing rows1 j = false := by
        unfold colAllMissing
        rw [List.all_eq_false]
        exact ⟨r, hr, by simpa using hne⟩
      simp [hfalse]
    unfold rowAllMissing selectCells
    rw [List.all_eq_false]
    exact ⟨r.getD j none, List.mem_map.2 ⟨j, hjks, rfl⟩, by simpa using hne⟩
  -- pass 2 drops no row
  have hrows2 : dropEmptyRows (rows1.map (selectCells ks)) =
      rows1.map (selectCells ks) := by
    unfold dropEmptyRows
    rw [List.filter_eq_self]
    intro r' hr'
    obtain ⟨r, hr, hreq⟩ := List.mem_map.1 hr'
    subst hreq
    simp [hkeep r hr]
  -- pass 2 keeps every column
  have hks2 : keepColIdx (rows1.map (selectCells ks)) ks.length =
      List.range ks.length := by
    unfold keepColIdx
    rw [List.filter_eq_self]
    intro i hi
    have hi' : i < ks.length := List.mem_range.1 hi
    have hjks : ks.getD i 0 ∈ ks := getD_mem_of_lt ks i 0 hi'
    have hcolj : colAllMissing rows1 (ks.getD i 0) = false := by
      have := (List.mem_filter.1 (by rw [hksdef] at hjks; exact hjks)).2
      simpa using this
    obtain ⟨r, hr, hrne⟩ := by
      unfold colAllMissing at hcolj
      exact List.all_eq_false.1 hcolj
    have hcell : (selectCells ks r).getD i none = r.getD (ks.getD i 0) none := by
      unfold selectCells
      exact getD_map_of_lt (fun j => r.getD j none) ks i 0 none hi'
    have hfalse : colAllMissing (rows1.map (selectCells ks)) i = false := by
      unfold colAllMissing
      rw [List.all_eq_false]
      refine ⟨selectCells ks r, List.mem_map.2 ⟨r, hr, rfl⟩, ?_⟩
      rw [hcell]
      simpa using hrne
    simp [hfalse]
  -- assemble: the second pass reproduces the first pass's frame
  show basicClean
      ⟨selectStr ks df.colNames, selectStr ks df.colDtypes,
        rows1.map (selectCells ks)⟩ = _
  unfold basicClean
  simp only [DF.nCols]
  have hnames : (selectStr ks df.colNames).length = ks.length := by
    simp [selectStr]
  rw [hrows2, hnames, hks2]
  have hsel1 : selectStr (List.range ks.length) (selectStr ks df.colNames) =
      selectStr ks df.colNames := by
    unfold selectStr
    have h := map_getD_range (ks.map (fun j => df.colNames.getD j "")) ""
    simpa [List.length_map] using h
  have hsel2 : selectStr (List.range ks.length) (selectStr ks df.colDtypes) =
      selectStr ks df.colDtypes := by
    unfold selectStr
    have h := map_getD_range (ks.map (fun j => df.colDtypes.getD j "")) ""
    simpa [List.length_map] using h
  have hsel3 : (rows1.map (selectCells ks)).map
      (selectCells (List.range ks.length)) = rows1.map (selectCells ks) := by
    rw [List.map_map]
    refine List.map_congr_left ?_
    intro r hr
    show selectCells (List.range ks.length) (selectCells ks r) = selectCells ks r
    unfold selectCells
    have h := map_getD_range (ks.map (fun j => r.getD j none)) none
    simpa [List.length_map] using h
  rw [hsel1, hsel2, hsel3]
  rfl

/-- C9: cleaning with strategy basic is idempotent on well-formed frames. -/
theorem C9_basic_idempotent (df : DF) (hwf : df.wf) :
    clean_data (clean_data df "basic") "basic" = clean_data df "basic" := by
  simp only [clean_data, if_pos rfl]
  exact basicClean_idem df hwf

/-- Witness for C9 at a concrete messy dataset. -/
theorem C9_basic_idempotent_witness :
    dfMessy.wf ∧
    clean_data (clean_data dfMessy "basic") "basic" =
      clean_data dfMessy "basic" :=
  ⟨by decide, C9_basic_idempotent dfMessy (by decide)⟩

end Validators


